import Mathlib

/-!
Shallow embedding of src/browser/src/Plugins/PluginManager.ts, the plugin
dispatcher of the Oni editor: the data model (EventContext, BufferInfo,
PluginResponse), the response handler `_handlePluginResponse`, the
staleness validator `_validateOriginEventMatchesCurrentEvent`, the event
ingestion paths `_onEvent` and `_onBufferUpdate`, and the request sender
`_sendLanguageServiceRequest`.  Deferred callbacks that the code schedules
with setTimeout are modelled as explicit DeferredTask values that are run
against the dispatcher state current at resume time; JS property accesses
on undefined values are modelled as a thrown typeError in an Except
result.
-/

namespace Oni

/-- EventContext: the IEventContext interface of PluginManager.ts plus the
`version` field that `_onBufferUpdate` reads off the event context. -/
structure EventContext where
  bufferFullPath : String
  line : Nat
  column : Nat
  byte : Nat
  filetype : String
  version : Nat
deriving DecidableEq, Repr

/-- IBufferInfo from PluginManager.ts. -/
structure BufferInfo where
  lines : List String
  version : Nat
  fileName : String
deriving DecidableEq, Repr

/-- Response `meta` object; `originEvent` is optional because a plugin may
omit it (JS undefined). -/
structure ResponseMeta where
  originEvent : Option EventContext
deriving DecidableEq, Repr

/-- Fields a response payload may carry across the response types handled
by `_handlePluginResponse`; `none` models an absent property on a present
payload object. -/
structure Payload where
  filePath : Option String := none
  line : Option Nat := none
  column : Option Nat := none
  info : Option String := none
  documentation : Option String := none
  key : Option String := none
  fileName : Option String := none
  errors : Option String := none
  color : Option String := none
  details : Option String := none
deriving DecidableEq, Repr

/-- PluginResponse: tagged by `type`; `payload` and `meta` are optional
(JS undefined); `error` models the truthiness of the error field. -/
structure PluginResponse where
  type : String
  payload : Option Payload := none
  error : Bool := false
  meta : Option ResponseMeta := none
deriving DecidableEq, Repr

/-- The two mutable dispatcher fields the claims are about:
`_lastEventContext` and `_lastBufferInfo`, both undefined before the first
event. -/
structure DispatcherState where
  lastEventContext : Option EventContext := none
  lastBufferInfo : Option BufferInfo := none
deriving DecidableEq, Repr

/-- Configuration values read through Config.getValue at the moment of
decision. -/
structure OniConfig where
  quickInfoEnabled : Bool
  completionsEnabled : Bool
  quickInfoDelay : Nat
deriving DecidableEq, Repr

/-- A thrown JS exception (property access on undefined). -/
inductive DispatchError
  | typeError
deriving DecidableEq, Repr

/-- Arguments of an EventEmitter emit call made by `_handlePluginResponse`. -/
inductive EmitArgs
  | setErrors (key fileName errors color : Option String)
  | payloadArg (p : Option Payload)
  | errorPayload (error : Bool) (p : Option Payload)
deriving DecidableEq, Repr

/-- Observable effects of the dispatcher: console logging, UI calls,
editor (neovim) commands and emitted host events. -/
inductive Effect
  | log (msg : String)
  | hideQuickInfo
  | showQuickInfo (info documentation : Option String)
  | showCompletions (p : Payload)
  | setDetailedCompletionEntry (details : Option String)
  | neovimCommand (cmd : String)
  | emit (eventName : String) (args : EmitArgs)
deriving DecidableEq, Repr

/-- Callbacks `_handlePluginResponse` schedules with setTimeout; they run
later against the then-current dispatcher state. -/
inductive DeferredTask
  | showQuickInfoAfterDelay (delay : Nat) (r : PluginResponse)
  | deferredHideQuickInfo
  | deferredShowCompletions (p : Payload)
  | deferredSetDetailedEntry (r : PluginResponse)
deriving DecidableEq, Repr

/-- JS string coercion for a possibly-undefined string value. -/
def jsStr : Option String → String
  | none => "undefined"
  | some s => s

/-- JS string coercion for a possibly-undefined number value. -/
def jsNatStr : Option Nat → String
  | none => "undefined"
  | some n => toString n

/-- Console message logged on a stale response, from
`_validateOriginEventMatchesCurrentEvent`. -/
def staleLogMessage : String :=
  "Plugin response aborted as it didn\x27t match current even (buffer/line/col)"

/-- Three-field comparison performed by
`_validateOriginEventMatchesCurrentEvent`. -/
def originMatches (origin current : EventContext) : Bool :=
  origin.bufferFullPath == current.bufferFullPath
    && origin.line == current.line
    && origin.column == current.column

/-- Translation of `_validateOriginEventMatchesCurrentEvent`.  A missing
`meta`, a missing `meta.originEvent`, or an undefined `_lastEventContext`
makes the JS property accesses throw, modelled as typeError.  On a
mismatch the method logs a diagnostic and returns false. -/
def validateOriginEventMatchesCurrentEvent (st : DispatcherState)
    (r : PluginResponse) : Except DispatchError (Bool × List Effect) :=
  match r.meta with
  | none => .error .typeError
  | some m =>
    match m.originEvent with
    | none => .error .typeError
    | some origin =>
      match st.lastEventContext with
      | none => .error .typeError
      | some current =>
        if originMatches origin current then .ok (true, [])
        else .ok (false, [.log staleLogMessage])

/-- Translation of `_handlePluginResponse`: dispatch on the response type
string; origin validation guards show-quick-info, goto-definition and
completion-provider; the method never writes `_lastEventContext` or
`_lastBufferInfo`, so the state is returned unchanged; setTimeout
callbacks become DeferredTask values. -/
def handlePluginResponse (cfg : OniConfig) (st : DispatcherState)
    (r : PluginResponse) :
    Except DispatchError (DispatcherState × List Effect × List DeferredTask) :=
  if r.type = "show-quick-info" then
    match validateOriginEventMatchesCurrentEvent st r with
    | .error e => .error e
    | .ok (false, effs) => .ok (st, effs, [])
    | .ok (true, effs) =>
      if !r.error then
        .ok (st, effs ++ [.hideQuickInfo],
          [.showQuickInfoAfterDelay cfg.quickInfoDelay r])
      else
        .ok (st, effs, [.deferredHideQuickInfo])
  else if r.type = "goto-definition" then
    match validateOriginEventMatchesCurrentEvent st r with
    | .error e => .error e
    | .ok (false, effs) => .ok (st, effs, [])
    | .ok (true, effs) =>
      match r.payload with
      | none => .error .typeError
      | some p =>
        .ok (st, effs ++
          [.neovimCommand ("e! " ++ jsStr p.filePath),
           .neovimCommand
             ("keepjumps norm " ++ jsNatStr p.line ++ "G" ++ jsNatStr p.column),
           .neovimCommand "norm zz"], [])
  else if r.type = "completion-provider" then
    match validateOriginEventMatchesCurrentEvent st r with
    | .error e => .error e
    | .ok (false, effs) => .ok (st, effs, [])
    | .ok (true, effs) =>
      match r.payload with
      | none => .ok (st, effs, [])
      | some p => .ok (st, effs, [.deferredShowCompletions p])
  else if r.type = "completion-provider-item-selected" then
    .ok (st, [], [.deferredSetDetailedEntry r])
  else if r.type = "set-errors" then
    match r.payload with
    | none => .error .typeError
    | some p =>
      .ok (st, [.emit "set-errors" (.setErrors p.key p.fileName p.errors p.color)], [])
  else if r.type = "format" then
    .ok (st, [.emit "format" (.payloadArg r.payload)], [])
  else if r.type = "execute-shell-command" then
    .ok (st, [.emit "execute-shell-command" (.payloadArg r.payload)], [])
  else if r.type = "evaluate-block-result" then
    .ok (st, [.emit "evaluate-block-result" (.payloadArg r.payload)], [])
  else if r.type = "set-syntax-highlights" then
    .ok (st, [.emit "set-syntax-highlights" (.payloadArg r.payload)], [])
  else if r.type = "clear-syntax-highlights" then
    .ok (st, [.emit "clear-syntax-highlights" (.payloadArg r.payload)], [])
  else if r.type = "signature-help-response" then
    .ok (st, [.emit "signature-help-response" (.errorPayload r.error r.payload)], [])
  else
    .ok (st, [], [])

/-- Run a scheduled setTimeout callback against the dispatcher state
current at resume time.  The quick-info show callback re-validates the
origin of its captured response against that state before showing; the
item-selected callback reads `payload.details`, throwing on an undefined
payload. -/
def runDeferredTask (st : DispatcherState) (t : DeferredTask) :
    Except DispatchError (List Effect) :=
  match t with
  | .showQuickInfoAfterDelay _ r =>
    match validateOriginEventMatchesCurrentEvent st r with
    | .error e => .error e
    | .ok (false, effs) => .ok effs
    | .ok (true, effs) =>
      match r.payload with
      | none => .error .typeError
      | some p => .ok (effs ++ [.showQuickInfo p.info p.documentation])
  | .deferredHideQuickInfo => .ok [.hideQuickInfo]
  | .deferredShowCompletions p => .ok [.showCompletions p]
  | .deferredSetDetailedEntry r =>
    match r.payload with
    | none => .error .typeError
    | some p => .ok [.setDetailedCompletionEntry p.details]

/-- Capability requirement carried by an outbound message. -/
structure CapabilityRequirement where
  subscriptions : List String := []
  languageService : List String := []
deriving DecidableEq, Repr

/-- Modelled from the spec: the filter built by
`Capabilities.createPluginFilter` (its source Api/Capabilities.ts is not
under src/); per the call sites and section 4.1 of the spec it packages
the event filetype, the required capabilities and the
require-language-service-match flag for per-plugin evaluation. -/
structure PluginFilter where
  fileType : String
  requirement : CapabilityRequirement
  requireLanguageServiceMatch : Bool
deriving DecidableEq, Repr

/-- Modelled from the spec: `Capabilities.createPluginFilter` constructs
the filter record from its three arguments. -/
def createPluginFilter (fileType : String) (req : CapabilityRequirement)
    (requireLS : Bool) : PluginFilter :=
  { fileType := fileType, requirement := req,
    requireLanguageServiceMatch := requireLS }

/-- Declared capabilities of a plugin: subscriptions, language-service
capabilities and filetype scope (`none` = universal scope). -/
structure PluginCapabilities where
  subscriptions : List String := []
  languageService : List String := []
  filetypes : Option (List String) := none
deriving DecidableEq, Repr

/-- Modelled from the spec: the Capability Filter contract `matches` of
section 4.1 (its source Api/Capabilities.ts is not under src/).  For
subscription-style requirements the plugin must hold every required
subscription name; for language-service requirements the plugin must
declare every required capability and its filetype scope must cover the
message filetype. -/
def capabilityFilterAccepts (pc : PluginCapabilities) (f : PluginFilter) : Bool :=
  if f.requireLanguageServiceMatch then
    f.requirement.languageService.all (fun c => pc.languageService.contains c)
      && (match pc.filetypes with
          | none => true
          | some fts => fts.contains f.fileType)
  else
    f.requirement.subscriptions.all (fun c => pc.subscriptions.contains c)

/-- A message given to `_channel.host.send`, with the filter built at the
call site. -/
inductive SentMessage
  | bufferUpdate (eventContext : EventContext) (bufferLines : List String)
      (filter : PluginFilter)
  | vimEvent (name : String) (context : EventContext) (filter : PluginFilter)
  | request (name : String) (context : EventContext)
      (extraArgs : List (String × String)) (filter : PluginFilter)
deriving DecidableEq, Repr

/-- Recognizer for language-service request messages. -/
def isLanguageServiceRequest : SentMessage → Bool
  | .request _ _ _ _ => true
  | _ => false

/-- Translation of `_sendLanguageServiceRequest`: the capability defaults
to the request name; the payload carries the request name, the context and
the additional arguments; the filter requires a language-service match on
the capability for the context filetype. -/
def sendLanguageServiceRequest (requestName : String) (ctx : EventContext)
    (languageServiceCapability : Option String)
    (additionalArgs : List (String × String)) : SentMessage :=
  let cap := languageServiceCapability.getD requestName
  .request requestName ctx additionalArgs
    (createPluginFilter ctx.filetype { languageService := [cap] } true)

/-- Translation of `_onEvent`: overwrite `_lastEventContext`, broadcast
the event to vim-events subscribers, then apply the fixed policy table for
CursorMoved (quick-info when enabled) and CursorMovedI
(completion-provider and signature-help when enabled). -/
def onEvent (cfg : OniConfig) (eventName : String) (ctx : EventContext)
    (st : DispatcherState) : DispatcherState × List SentMessage :=
  let st2 := { st with lastEventContext := some ctx }
  let eventMsg := SentMessage.vimEvent eventName ctx
    (createPluginFilter ctx.filetype { subscriptions := ["vim-events"] } false)
  let requests :=
    if eventName = "CursorMoved" ∧ cfg.quickInfoEnabled = true then
      [sendLanguageServiceRequest "quick-info" ctx none []]
    else if eventName = "CursorMovedI" ∧ cfg.completionsEnabled = true then
      [sendLanguageServiceRequest "completion-provider" ctx none [],
       sendLanguageServiceRequest "signature-help" ctx none []]
    else []
  (st2, eventMsg :: requests)

/-- Translation of `_onBufferUpdate`: overwrite `_lastBufferInfo` with the
new lines, file name and version, and send one buffer-update message
filtered to the buffer-update subscription without requiring a
language-service match. -/
def onBufferUpdate (ctx : EventContext) (bufferLines : List String)
    (st : DispatcherState) : DispatcherState × List SentMessage :=
  let bi : BufferInfo :=
    { lines := bufferLines, fileName := ctx.bufferFullPath,
      version := ctx.version }
  let st2 := { st with lastBufferInfo := some bi }
  (st2, [SentMessage.bufferUpdate ctx bufferLines
    (createPluginFilter ctx.filetype { subscriptions := ["buffer-update"] } false)])

/-- Translation of the `currentBuffer` accessor. -/
def currentBuffer (st : DispatcherState) : Option BufferInfo :=
  st.lastBufferInfo

/-- Translation of `notifyCompletionItemSelected`: sends a
completion-provider-item-selected request for the last event context with
language-service capability completion-provider; an undefined
`_lastEventContext` makes `_sendLanguageServiceRequest` throw on reading
its filetype. -/
def notifyCompletionItemSelected (st : DispatcherState) (item : String) :
    Except DispatchError SentMessage :=
  match st.lastEventContext with
  | none => .error .typeError
  | some ctx =>
    .ok (sendLanguageServiceRequest "completion-provider-item-selected" ctx
      (some "completion-provider") [("item", item)])

/-- The closed set of response types `_handlePluginResponse` recognizes. -/
def recognizedResponseTypes : List String :=
  ["show-quick-info", "goto-definition", "completion-provider",
   "completion-provider-item-selected", "set-errors", "format",
   "execute-shell-command", "evaluate-block-result", "set-syntax-highlights",
   "clear-syntax-highlights", "signature-help-response"]

/-- Sample context used by the concrete witnesses. -/
def ctxA : EventContext :=
  { bufferFullPath := "/a.ts", line := 4, column := 2, byte := 0,
    filetype := "typescript", version := 1 }

/-- Sample context differing from ctxA in the line. -/
def ctxB : EventContext :=
  { bufferFullPath := "/a.ts", line := 5, column := 2, byte := 0,
    filetype := "typescript", version := 1 }

/-- Sample configuration. -/
def cfg0 : OniConfig :=
  { quickInfoEnabled := true, completionsEnabled := true, quickInfoDelay := 50 }

/-- Dispatcher state whose current context is ctxA. -/
def stA : DispatcherState := { lastEventContext := some ctxA }

/-- Dispatcher state whose current context is ctxB. -/
def stB : DispatcherState := { lastEventContext := some ctxB }

/-- Dispatcher state before any event. -/
def stEmpty : DispatcherState := {}

/-- Sample goto-definition payload. -/
def gotoPayload : Payload :=
  { filePath := some "/b.ts", line := some 10, column := some 3 }

/-- Sample goto-definition response stamped with origin ctxA. -/
def gotoResp : PluginResponse :=
  { type := "goto-definition", payload := some gotoPayload,
    meta := some { originEvent := some ctxA } }

/-- Sample completion-provider-item-selected response stamped with origin
ctxA. -/
def itemSelResp : PluginResponse :=
  { type := "completion-provider-item-selected",
    payload := some { details := some "detail-text" },
    meta := some { originEvent := some ctxA } }

/-- Sample show-quick-info response stamped with origin ctxA. -/
def quickInfoResp : PluginResponse :=
  { type := "show-quick-info",
    payload := some { info := some "info-text", documentation := some "doc-text" },
    meta := some { originEvent := some ctxA } }

/-- Origin-checked response without a meta object. -/
def noMetaResp : PluginResponse := { type := "show-quick-info" }

/-- Plugin declaring only the completion-provider-item-selected
language-service capability. -/
def csPlugin : PluginCapabilities :=
  { languageService := ["completion-provider-item-selected"] }

/-- C1 (staleness rejection): a response of an origin-checked type
(show-quick-info, goto-definition or completion-provider) whose
meta.originEvent differs from the current lastEventContext in
bufferFullPath, line or column produces only the diagnostic log: no UI
call, no editor command, no emitted host event, no deferred task, and the
dispatcher state is unchanged. -/
theorem staleness_rejection (cfg : OniConfig) (st : DispatcherState)
    (r : PluginResponse) (c o : EventContext) (m : ResponseMeta)
    (hty : r.type = "show-quick-info" ∨ r.type = "goto-definition" ∨
      r.type = "completion-provider")
    (hcur : st.lastEventContext = some c)
    (hmeta : r.meta = some m) (horig : m.originEvent = some o)
    (hmis : originMatches o c = false) :
    handlePluginResponse cfg st r =
      .ok (st, [Effect.log staleLogMessage], []) := by
  rcases hty with h | h | h <;>
    simp [handlePluginResponse, validateOriginEventMatchesCurrentEvent, h,
      hcur, hmeta, horig, hmis]

/-- C1 witness: the sample goto-definition response stamped with ctxA is
discarded with only a log once the current context is ctxB. -/
theorem staleness_rejection_witness :
    originMatches ctxA ctxB = false ∧
    handlePluginResponse cfg0 stB gotoResp =
      .ok (stB, [Effect.log staleLogMessage], []) :=
  ⟨by decide,
   staleness_rejection cfg0 stB gotoResp ctxB ctxA
     { originEvent := some ctxA }
     (Or.inr (Or.inl rfl)) rfl rfl rfl (by decide)⟩

/-- C2 (goto-definition acceptance): a goto-definition response whose
origin matches the current context issues exactly three editor commands in
order: open the payload filePath, move the cursor to the payload line and
column, and center the view. -/
theorem goto_definition_fresh (cfg : OniConfig) (st : DispatcherState)
    (r : PluginResponse) (c o : EventContext) (m : ResponseMeta)
    (p : Payload) (fp : String) (l col : Nat)
    (hty : r.type = "goto-definition")
    (hcur : st.lastEventContext = some c)
    (hmeta : r.meta = some m) (horig : m.originEvent = some o)
    (hmatch : originMatches o c = true)
    (hpay : r.payload = some p) (hfp : p.filePath = some fp)
    (hl : p.line = some l) (hcol : p.column = some col) :
    handlePluginResponse cfg st r =
      .ok (st,
        [Effect.neovimCommand ("e! " ++ fp),
         Effect.neovimCommand
           ("keepjumps norm " ++ toString l ++ "G" ++ toString col),
         Effect.neovimCommand "norm zz"], []) := by
  simp [handlePluginResponse, validateOriginEventMatchesCurrentEvent, hty,
    hcur, hmeta, horig, hmatch, hpay, hfp, hl, hcol, jsStr, jsNatStr]

/-- C2 witness: the sample goto-definition response with payload /b.ts,
line 10, column 3 issues the three navigation commands while the current
context still equals its origin ctxA. -/
theorem goto_definition_fresh_witness :
    originMatches ctxA ctxA = true ∧
    handlePluginResponse cfg0 stA gotoResp =
      .ok (stA,
        [Effect.neovimCommand ("e! " ++ "/b.ts"),
         Effect.neovimCommand
           ("keepjumps norm " ++ toString 10 ++ "G" ++ toString 3),
         Effect.neovimCommand "norm zz"], []) :=
  ⟨by decide,
   goto_definition_fresh cfg0 stA gotoResp ctxA ctxA
     { originEvent := some ctxA } gotoPayload "/b.ts" 10 3
     rfl rfl rfl rfl (by decide) rfl rfl rfl rfl⟩

/-- C6 (unknown response no-op): a response whose type is outside the
recognized set produces no effect at all: no UI call, no emitted event,
no log, no exception, no deferred task and no state change. -/
theorem unknown_response_noop (cfg : OniConfig) (st : DispatcherState)
    (r : PluginResponse) (h : r.type ∉ recognizedResponseTypes) :
    handlePluginResponse cfg st r = .ok (st, [], []) := by
  simp [recognizedResponseTypes, List.mem_cons, not_or] at h
  obtain ⟨h1, h2, h3, h4, h5, h6, h7, h8, h9, h10, h11⟩ := h
  simp [handlePluginResponse, h1, h2, h3, h4, h5, h6, h7, h8, h9, h10, h11]

/-- C6 witness: a response of type unrecognized-xyz is a complete no-op. -/
theorem unknown_response_noop_witness :
    handlePluginResponse cfg0 stA { type := "unrecognized-xyz" } =
      .ok (stA, [], []) :=
  unknown_response_noop cfg0 stA { type := "unrecognized-xyz" } (by decide)

/-- C3 counterexample: a completion-provider-item-selected response whose
originEvent (ctxA) differs from the current context (ctxB) in line is not
discarded: handleResponse schedules the deferred UI call unconditionally
and running it surfaces the detailed completion entry. -/
theorem item_selected_stale_applied_cex :
    originMatches ctxA ctxB = false ∧
    handlePluginResponse cfg0 stB itemSelResp =
      .ok (stB, [], [DeferredTask.deferredSetDetailedEntry itemSelResp]) ∧
    runDeferredTask stB (DeferredTask.deferredSetDetailedEntry itemSelResp) =
      .ok [Effect.setDetailedCompletionEntry (some "detail-text")] :=
  ⟨by decide, rfl, rfl⟩

/-- C3 amended: completion-provider-item-selected responses are applied
without any origin check: whatever the meta.originEvent (mismatched or
missing), handleResponse schedules the deferred detailed-entry display and
changes no state. -/
theorem item_selected_no_origin_check (cfg : OniConfig)
    (st : DispatcherState) (r : PluginResponse)
    (hty : r.type = "completion-provider-item-selected") :
    handlePluginResponse cfg st r =
      .ok (st, [], [DeferredTask.deferredSetDetailedEntry r]) := by
  simp [handlePluginResponse, hty]

/-- C3 amended witness: the sample stale item-selected response is
scheduled despite its origin mismatch. -/
theorem item_selected_no_origin_check_witness :
    handlePluginResponse cfg0 stB itemSelResp =
      .ok (stB, [], [DeferredTask.deferredSetDetailedEntry itemSelResp]) :=
  item_selected_no_origin_check cfg0 stB itemSelResp rfl

/-- C4 counterexample: a show-quick-info response with no meta object is
not treated as a failed origin match: handleResponse throws (the validator
reads meta.originEvent off undefined), modelled as typeError. -/
theorem missing_origin_throws_cex :
    handlePluginResponse cfg0 stA noMetaResp =
      .error DispatchError.typeError :=
  rfl

/-- C4 amended: for an origin-checked response type, a missing
meta.originEvent (a missing meta object included) makes handleResponse
throw a TypeError instead of discarding the response as a failed match, so
a malformed response of these types does crash the handler. -/
theorem missing_origin_throws (cfg : OniConfig) (st : DispatcherState)
    (r : PluginResponse)
    (hty : r.type = "show-quick-info" ∨ r.type = "goto-definition" ∨
      r.type = "completion-provider")
    (hm : r.meta.bind ResponseMeta.originEvent = none) :
    handlePluginResponse cfg st r = .error DispatchError.typeError := by
  rcases hty with h | h | h <;>
  · cases hmeta : r.meta with
    | none =>
      simp [handlePluginResponse, validateOriginEventMatchesCurrentEvent,
        h, hmeta]
    | some m =>
      rw [hmeta] at hm
      have hm2 : m.originEvent = none := hm
      simp [handlePluginResponse, validateOriginEventMatchesCurrentEvent,
        h, hmeta, hm2]

/-- C4 amended witness: the metaless show-quick-info response makes the
handler throw. -/
theorem missing_origin_throws_witness :
    handlePluginResponse cfg0 stA noMetaResp =
      .error DispatchError.typeError :=
  missing_origin_throws cfg0 stA noMetaResp (Or.inl rfl) rfl

/-- C5 (show-quick-info handling): with a fresh origin and no error the
handler first hides the quick info and schedules a delayed show
(configured delay) that re-validates the captured origin against the
then-current context, showing the payload info and documentation only when
still fresh and logging otherwise; with a truthy error it schedules a
deferred hide and never a show. -/
theorem show_quick_info_behavior (cfg : OniConfig) (st : DispatcherState)
    (r : PluginResponse) (c o : EventContext) (m : ResponseMeta)
    (hty : r.type = "show-quick-info")
    (hcur : st.lastEventContext = some c)
    (hmeta : r.meta = some m) (horig : m.originEvent = some o)
    (hmatch : originMatches o c = true) :
    (r.error = false →
      handlePluginResponse cfg st r =
        .ok (st, [Effect.hideQuickInfo],
          [DeferredTask.showQuickInfoAfterDelay cfg.quickInfoDelay r]) ∧
      (∀ st2 c2 p, st2.lastEventContext = some c2 → r.payload = some p →
        runDeferredTask st2
            (DeferredTask.showQuickInfoAfterDelay cfg.quickInfoDelay r) =
          (if originMatches o c2 then
            .ok [Effect.showQuickInfo p.info p.documentation]
          else .ok [Effect.log staleLogMessage]))) ∧
    (r.error = true →
      handlePluginResponse cfg st r =
        .ok (st, [], [DeferredTask.deferredHideQuickInfo]) ∧
      (∀ st2, runDeferredTask st2 DeferredTask.deferredHideQuickInfo =
        .ok [Effect.hideQuickInfo])) := by
  constructor
  · intro herr
    constructor
    · simp [handlePluginResponse, validateOriginEventMatchesCurrentEvent,
        hty, hcur, hmeta, horig, hmatch, herr]
    · intro st2 c2 p hcur2 hpay
      cases hb : originMatches o c2 <;>
        simp [runDeferredTask, validateOriginEventMatchesCurrentEvent,
          hmeta, horig, hcur2, hb, hpay]
  · intro herr
    constructor
    · simp [handlePluginResponse, validateOriginEventMatchesCurrentEvent,
        hty, hcur, hmeta, horig, hmatch, herr]
    · intro st2
      rfl

/-- C5 witness: the sample quick-info response with origin ctxA, accepted
while the context is ctxA, hides then schedules the delayed show; resumed
after the context moved to ctxB, the delayed show only logs. -/
theorem show_quick_info_behavior_witness :
    handlePluginResponse cfg0 stA quickInfoResp =
      .ok (stA, [Effect.hideQuickInfo],
        [DeferredTask.showQuickInfoAfterDelay cfg0.quickInfoDelay quickInfoResp]) ∧
    runDeferredTask stB
        (DeferredTask.showQuickInfoAfterDelay cfg0.quickInfoDelay quickInfoResp) =
      .ok [Effect.log staleLogMessage] := by
  have H := show_quick_info_behavior cfg0 stA quickInfoResp ctxA ctxA
    { originEvent := some ctxA } rfl rfl rfl rfl (by decide)
  refine ⟨(H.1 rfl).1, ?_⟩
  have H2 := (H.1 rfl).2 stB ctxB
    { info := some "info-text", documentation := some "doc-text" } rfl rfl
  rw [H2]
  have hb : originMatches ctxA ctxB = false := by decide
  simp [hb]

/-- C7 (event-to-request policy): CursorMoved with quick-info enabled
sends exactly one language-service request, quick-info on the event
context filtered to capability quick-info; CursorMovedI with completions
enabled sends exactly the completion-provider and signature-help requests;
no other event name makes onEvent send a language-service request. -/
theorem event_request_policy :
    (∀ (cfg : OniConfig) (ctx : EventContext) (st : DispatcherState),
      cfg.quickInfoEnabled = true →
      ((onEvent cfg "CursorMoved" ctx st).2.filter isLanguageServiceRequest) =
        [SentMessage.request "quick-info" ctx []
          (createPluginFilter ctx.filetype
            { languageService := ["quick-info"] } true)]) ∧
    (∀ (cfg : OniConfig) (ctx : EventContext) (st : DispatcherState),
      cfg.completionsEnabled = true →
      ((onEvent cfg "CursorMovedI" ctx st).2.filter isLanguageServiceRequest) =
        [SentMessage.request "completion-provider" ctx []
          (createPluginFilter ctx.filetype
            { languageService := ["completion-provider"] } true),
         SentMessage.request "signature-help" ctx []
          (createPluginFilter ctx.filetype
            { languageService := ["signature-help"] } true)]) ∧
    (∀ (cfg : OniConfig) (name : String) (ctx : EventContext)
        (st : DispatcherState),
      name ≠ "CursorMoved" → name ≠ "CursorMovedI" →
      ((onEvent cfg name ctx st).2.filter isLanguageServiceRequest) = []) := by
  refine ⟨?_, ?_, ?_⟩
  · intro cfg ctx st h
    simp [onEvent, sendLanguageServiceRequest, isLanguageServiceRequest, h]
  · intro cfg ctx st h
    simp [onEvent, sendLanguageServiceRequest, isLanguageServiceRequest, h]
  · intro cfg name ctx st h1 h2
    simp [onEvent, isLanguageServiceRequest, h1, h2]

/-- C7 witness: the policy instantiated at ctxA with cfg0, including the
no-request case for the BufEnter event. -/
theorem event_request_policy_witness :
    ((onEvent cfg0 "CursorMoved" ctxA stEmpty).2.filter
        isLanguageServiceRequest) =
      [SentMessage.request "quick-info" ctxA []
        (createPluginFilter ctxA.filetype
          { languageService := ["quick-info"] } true)] ∧
    ((onEvent cfg0 "CursorMovedI" ctxA stEmpty).2.filter
        isLanguageServiceRequest) =
      [SentMessage.request "completion-provider" ctxA []
        (createPluginFilter ctxA.filetype
          { languageService := ["completion-provider"] } true),
       SentMessage.request "signature-help" ctxA []
        (createPluginFilter ctxA.filetype
          { languageService := ["signature-help"] } true)] ∧
    ((onEvent cfg0 "BufEnter" ctxA stEmpty).2.filter
        isLanguageServiceRequest) = [] :=
  ⟨event_request_policy.1 cfg0 ctxA stEmpty rfl,
   event_request_policy.2.1 cfg0 ctxA stEmpty rfl,
   event_request_policy.2.2 cfg0 "BufEnter" ctxA stEmpty
     (by decide) (by decide)⟩

/-- C8 (buffer update): onBufferUpdate replaces lastBufferInfo wholesale
with the new lines, the context bufferFullPath as fileName and the context
version; the currentBuffer accessor then returns exactly that value; and
one buffer-update message carrying the context and lines is sent filtered
to the buffer-update subscription without requiring a language-service
match. -/
theorem buffer_update_behavior (ctx : EventContext)
    (bufferLines : List String) (st : DispatcherState) :
    (onBufferUpdate ctx bufferLines st).1 =
      { st with lastBufferInfo := some (BufferInfo.mk bufferLines ctx.version ctx.bufferFullPath) } ∧
    currentBuffer (onBufferUpdate ctx bufferLines st).1 =
      some { lines := bufferLines, fileName := ctx.bufferFullPath,
             version := ctx.version } ∧
    (onBufferUpdate ctx bufferLines st).2 =
      [SentMessage.bufferUpdate ctx bufferLines
        (createPluginFilter ctx.filetype
          { subscriptions := ["buffer-update"] } false)] :=
  ⟨rfl, rfl, rfl⟩

/-- C9 (single-writer frame): handleResponse never changes
lastEventContext or lastBufferInfo whatever the response; onEvent writes
lastEventContext and leaves lastBufferInfo intact; onBufferUpdate writes
lastBufferInfo and leaves lastEventContext intact. -/
theorem single_writer_frame :
    (∀ (cfg : OniConfig) (st : DispatcherState) (r : PluginResponse)
        (st2 : DispatcherState) (effs : List Effect)
        (defs : List DeferredTask),
      handlePluginResponse cfg st r = .ok (st2, effs, defs) → st2 = st) ∧
    (∀ (cfg : OniConfig) (name : String) (ctx : EventContext)
        (st : DispatcherState),
      (onEvent cfg name ctx st).1.lastEventContext = some ctx ∧
      (onEvent cfg name ctx st).1.lastBufferInfo = st.lastBufferInfo) ∧
    (∀ (ctx : EventContext) (bl : List String) (st : DispatcherState),
      (onBufferUpdate ctx bl st).1.lastEventContext = st.lastEventContext) := by
  refine ⟨?_, ?_, ?_⟩
  · intro cfg st r st2 effs defs h
    simp only [handlePluginResponse] at h
    by_cases h1 : r.type = "show-quick-info"
    · rw [if_pos h1] at h
      repeat' split at h
      all_goals first
        | exact Except.noConfusion h
        | (simp only [Except.ok.injEq, Prod.mk.injEq] at h; exact h.1.symm)
    rw [if_neg h1] at h
    by_cases h2 : r.type = "goto-definition"
    · rw [if_pos h2] at h
      repeat' split at h
      all_goals first
        | exact Except.noConfusion h
        | (simp only [Except.ok.injEq, Prod.mk.injEq] at h; exact h.1.symm)
    rw [if_neg h2] at h
    by_cases h3 : r.type = "completion-provider"
    · rw [if_pos h3] at h
      repeat' split at h
      all_goals first
        | exact Except.noConfusion h
        | (simp only [Except.ok.injEq, Prod.mk.injEq] at h; exact h.1.symm)
    rw [if_neg h3] at h
    by_cases h4 : r.type = "completion-provider-item-selected"
    · rw [if_pos h4] at h
      simp only [Except.ok.injEq, Prod.mk.injEq] at h
      exact h.1.symm
    rw [if_neg h4] at h
    by_cases h5 : r.type = "set-errors"
    · rw [if_pos h5] at h
      repeat' split at h
      all_goals first
        | exact Except.noConfusion h
        | (simp only [Except.ok.injEq, Prod.mk.injEq] at h; exact h.1.symm)
    rw [if_neg h5] at h
    by_cases h6 : r.type = "format"
    · rw [if_pos h6] at h
      simp only [Except.ok.injEq, Prod.mk.injEq] at h
      exact h.1.symm
    rw [if_neg h6] at h
    by_cases h7 : r.type = "execute-shell-command"
    · rw [if_pos h7] at h
      simp only [Except.ok.injEq, Prod.mk.injEq] at h
      exact h.1.symm
    rw [if_neg h7] at h
    by_cases h8 : r.type = "evaluate-block-result"
    · rw [if_pos h8] at h
      simp only [Except.ok.injEq, Prod.mk.injEq] at h
      exact h.1.symm
    rw [if_neg h8] at h
    by_cases h9 : r.type = "set-syntax-highlights"
    · rw [if_pos h9] at h
      simp only [Except.ok.injEq, Prod.mk.injEq] at h
      exact h.1.symm
    rw [if_neg h9] at h
    by_cases h10 : r.type = "clear-syntax-highlights"
    · rw [if_pos h10] at h
      simp only [Except.ok.injEq, Prod.mk.injEq] at h
      exact h.1.symm
    rw [if_neg h10] at h
    by_cases h11 : r.type = "signature-help-response"
    · rw [if_pos h11] at h
      simp only [Except.ok.injEq, Prod.mk.injEq] at h
      exact h.1.symm
    rw [if_neg h11] at h
    simp only [Except.ok.injEq, Prod.mk.injEq] at h
    exact h.1.symm
  · intro cfg name ctx st
    exact ⟨rfl, rfl⟩
  · intro ctx bl st
    rfl

/-- C9 witness: the stale goto-definition response leaves the state stB
unchanged. -/
theorem single_writer_frame_witness :
    handlePluginResponse cfg0 stB gotoResp =
      .ok (stB, [Effect.log staleLogMessage], []) ∧ stB = stB :=
  ⟨rfl, single_writer_frame.1 cfg0 stB gotoResp stB
    [Effect.log staleLogMessage] [] rfl⟩

/-- C10 (item-selected capability filter): notifyCompletionItemSelected
sends a request named completion-provider-item-selected whose filter
requires the language-service capability completion-provider, so a plugin
declaring only the completion-provider-item-selected capability never
matches the filter. -/
theorem item_selected_capability (st : DispatcherState)
    (ctx : EventContext) (item : String)
    (h : st.lastEventContext = some ctx) :
    notifyCompletionItemSelected st item =
      .ok (SentMessage.request "completion-provider-item-selected" ctx
        [("item", item)]
        (createPluginFilter ctx.filetype
          { languageService := ["completion-provider"] } true)) ∧
    (∀ pc : PluginCapabilities,
      pc.languageService = ["completion-provider-item-selected"] →
      capabilityFilterAccepts pc
        (createPluginFilter ctx.filetype
          { languageService := ["completion-provider"] } true) = false) := by
  constructor
  · simp [notifyCompletionItemSelected, h, sendLanguageServiceRequest]
  · intro pc hpc
    simp [capabilityFilterAccepts, createPluginFilter, hpc]

/-- C10 witness: the request built for stA and the sample plugin declaring
only completion-provider-item-selected, which the filter rejects. -/
theorem item_selected_capability_witness :
    notifyCompletionItemSelected stA "itemX" =
      .ok (SentMessage.request "completion-provider-item-selected" ctxA
        [("item", "itemX")]
        (createPluginFilter ctxA.filetype
          { languageService := ["completion-provider"] } true)) ∧
    capabilityFilterAccepts csPlugin
      (createPluginFilter ctxA.filetype
        { languageService := ["completion-provider"] } true) = false :=
  ⟨(item_selected_capability stA ctxA "itemX" rfl).1,
   (item_selected_capability stA ctxA "itemX" rfl).2 csPlugin rfl⟩

end Oni
